import Mathlib

/-!
Shallow embedding of src/src/response.rs from the SwiftRemit repository.

The Rust source defines a single generic struct:

  pub struct Response<T: Clone> {
      pub success: bool,
      pub data: Option<T>,
      pub error: Option<u32>,
  }

with two constructors, Response::ok and Response::err.  The u32 error code
is embedded as a Nat (the code performs no arithmetic on it, so no wrapping
is needed; bounds are stated explicitly where a claim mentions the u32 range).
-/

/-- Embedding of the Rust struct Response<T> (src/src/response.rs, lines 7-11).
All three fields are public in the source, so the Lean structure likewise
places no constraint on them. -/
structure Response (T : Type) where
  success : Bool
  data : Option T
  error : Option Nat
deriving Repr, DecidableEq

namespace Response

/-- Embedding of Response::ok (src/src/response.rs, lines 14-20). -/
def ok {T : Type} (data : T) : Response T :=
  { success := true, data := some data, error := none }

/-- Embedding of Response::err (src/src/response.rs, lines 22-28). -/
def err {T : Type} (error_code : Nat) : Response T :=
  { success := false, data := none, error := some error_code }

end Response

/-- The public contract of the component: a Response value originates from one
of the two factory operations, ok or err.  These are the only operations the
impl block exposes, and neither takes an existing envelope as input, so no
exposed operation modifies an envelope after construction. -/
inductive Response.FromAPI {T : Type} : Response T → Prop where
  | ok (v : T) : Response.FromAPI (Response.ok v)
  | err (c : Nat) : Response.FromAPI (Response.err c)

/-- Modelled from the spec: the host serialization mechanism (the soroban-sdk
contracttype derive, whose code is not part of this repository) represents the
envelope as a structured record with the three named fields success, data and
error, preserving field names and exact optionality.  A field value is a
boolean, an optional payload, or an optional unsigned 32-bit code. -/
inductive FieldVal (T : Type) where
  | vBool : Bool → FieldVal T
  | vOptData : Option T → FieldVal T
  | vOptU32 : Option Nat → FieldVal T
deriving Repr

/-- Modelled from the spec: encoding an envelope to its structured record
form, a list of named fields preserving field names and exact optionality. -/
def encodeResponse {T : Type} (r : Response T) : List (String × FieldVal T) :=
  [("success", FieldVal.vBool r.success),
   ("data", FieldVal.vOptData r.data),
   ("error", FieldVal.vOptU32 r.error)]

/-- Modelled from the spec: decoding a structured record back to an envelope
by looking up the three named fields; fails if a field is missing or has the
wrong shape. -/
def decodeResponse {T : Type} (fields : List (String × FieldVal T)) :
    Option (Response T) :=
  match fields.lookup "success", fields.lookup "data", fields.lookup "error" with
  | some (FieldVal.vBool s), some (FieldVal.vOptData d), some (FieldVal.vOptU32 e) =>
      some { success := s, data := d, error := e }
  | _, _, _ => none

/-- C1: For every payload type T and every value v of type T, the envelope
returned by Response.ok v has success = true, data = some v, error = none. -/
theorem ok_fields {T : Type} (v : T) :
    (Response.ok v).success = true ∧
    (Response.ok v).data = some v ∧
    (Response.ok v).error = none := by
  refine ⟨rfl, rfl, rfl⟩

/-- C2: For every 32-bit unsigned integer code, the envelope returned by
Response.err code has success = false, data = none, error = some code. -/
theorem err_fields {T : Type} (code : Nat) (hcode : code < 2 ^ 32) :
    (Response.err code : Response T).success = false ∧
    (Response.err code : Response T).data = none ∧
    (Response.err code : Response T).error = some code := by
  refine ⟨rfl, rfl, rfl⟩

/-- Witness for C2 at code = 404 and payload type Nat. -/
theorem err_fields_witness :
    (Response.err 404 : Response Nat).success = false ∧
    (Response.err 404 : Response Nat).data = none ∧
    (Response.err 404 : Response Nat).error = some 404 :=
  err_fields 404 (by decide)

/-- C3: Every envelope constructed via Response.ok or Response.err satisfies
mutual exclusivity: exactly one of data and error is populated, never both
and never neither. -/
theorem constructed_mutual_exclusivity {T : Type} (r : Response T)
    (h : Response.FromAPI r) :
    r.data.isSome ≠ r.error.isSome ∧
    ¬(r.data.isSome = true ∧ r.error.isSome = true) ∧
    ¬(r.data = none ∧ r.error = none) := by
  cases h with
  | ok v => exact ⟨by simp [Response.ok], by simp [Response.ok], by simp [Response.ok]⟩
  | err c => exact ⟨by simp [Response.err], by simp [Response.err], by simp [Response.err]⟩

/-- Witness for C3 at the concrete envelope Response.ok 42. -/
theorem constructed_mutual_exclusivity_witness :
    (Response.ok 42 : Response Nat).data.isSome ≠
      (Response.ok 42 : Response Nat).error.isSome ∧
    ¬((Response.ok 42 : Response Nat).data.isSome = true ∧
      (Response.ok 42 : Response Nat).error.isSome = true) ∧
    ¬((Response.ok 42 : Response Nat).data = none ∧
      (Response.ok 42 : Response Nat).error = none) :=
  constructed_mutual_exclusivity (Response.ok 42) (Response.FromAPI.ok 42)

/-- C4: For every envelope constructed via Response.ok or Response.err, the
success flag agrees with which optional is populated: data is present iff
success = true, and error is present iff success = false. -/
theorem constructed_flag_consistency {T : Type} (r : Response T)
    (h : Response.FromAPI r) :
    (r.data.isSome = true ↔ r.success = true) ∧
    (r.error.isSome = true ↔ r.success = false) := by
  cases h with
  | ok v => exact ⟨by simp [Response.ok], by simp [Response.ok]⟩
  | err c => exact ⟨by simp [Response.err], by simp [Response.err]⟩

/-- Witness for C4 at the concrete envelope Response.err 7. -/
theorem constructed_flag_consistency_witness :
    ((Response.err 7 : Response Nat).data.isSome = true ↔
      (Response.err 7 : Response Nat).success = true) ∧
    ((Response.err 7 : Response Nat).error.isSome = true ↔
      (Response.err 7 : Response Nat).success = false) :=
  constructed_flag_consistency (Response.err 7) (Response.FromAPI.err 7)

/-- C5: Equality on Response T is structural: two envelopes are equal iff
their success, data and error fields are pairwise equal; consequently
ok v = ok v, err c = err c, and ok v ≠ err c for all v and c. -/
theorem response_eq_structural {T : Type} (a b : Response T) (v : T) (c : Nat) :
    (a = b ↔ a.success = b.success ∧ a.data = b.data ∧ a.error = b.error) ∧
    Response.ok v = Response.ok v ∧
    (Response.err c : Response T) = Response.err c ∧
    Response.ok v ≠ Response.err c := by
  refine ⟨?_, rfl, rfl, ?_⟩
  · cases a; cases b; simp [Response.mk.injEq]
  · intro hcontra
    have hs : (Response.ok v).success = (Response.err c : Response T).success := by
      rw [hcontra]
    simp [Response.ok, Response.err] at hs

/-- C6: The public contract exposes exactly the two factory operations ok and
err; every API-constructed envelope is the unmodified result of one of them,
and no exposed operation takes an existing envelope and alters its fields. -/
theorem api_values_are_constructor_results {T : Type} (r : Response T)
    (h : Response.FromAPI r) :
    (∃ v, r = Response.ok v) ∨ (∃ c, r = Response.err c) := by
  cases h with
  | ok v => exact Or.inl ⟨v, rfl⟩
  | err c => exact Or.inr ⟨c, rfl⟩

/-- Witness for C6 at the concrete envelope Response.err 1. -/
theorem api_values_are_constructor_results_witness :
    (∃ v, (Response.err 1 : Response Nat) = Response.ok v) ∨
    (∃ c, (Response.err 1 : Response Nat) = Response.err c) :=
  api_values_are_constructor_results (Response.err 1) (Response.FromAPI.err 1)

/-- C7: Both constructors are total deterministic value constructions: for
every input each yields exactly one envelope, namely the fully determined
record of its defining equation, and signals no failure. -/
theorem constructors_total {T : Type} (v : T) (c : Nat) :
    (∃! r : Response T, Response.ok v = r) ∧
    (∃! r : Response T, (Response.err c : Response T) = r) ∧
    Response.ok v = { success := true, data := some v, error := none } ∧
    (Response.err c : Response T) =
      { success := false, data := none, error := some c } := by
  exact ⟨⟨Response.ok v, rfl, fun r hr => hr.symm⟩,
         ⟨Response.err c, rfl, fun r hr => hr.symm⟩, rfl, rfl⟩

/-- C8: Response.err passes the caller-supplied u32 code through verbatim,
with no interpretation, validation or range check: for every code in the u32
range, including 0 and the maximum 4294967295, the stored error equals the
input code unmodified. -/
theorem err_code_passthrough {T : Type} (code : Nat) (hcode : code < 2 ^ 32) :
    (Response.err code : Response T).error = some code ∧
    (Response.err code : Response T).success = false := by
  exact ⟨rfl, rfl⟩

/-- Witness for C8 at the boundary values 0 and u32 maximum 4294967295. -/
theorem err_code_passthrough_witness :
    ((Response.err 0 : Response Nat).error = some 0 ∧
      (Response.err 0 : Response Nat).success = false) ∧
    ((Response.err 4294967295 : Response Nat).error = some 4294967295 ∧
      (Response.err 4294967295 : Response Nat).success = false) :=
  ⟨err_code_passthrough 0 (by decide),
   err_code_passthrough 4294967295 (by decide)⟩

/-- C9: Encoding any envelope to its structured three-field record form and
decoding it back yields the original envelope, for both ok and err variants
and for every payload type T, composite payloads included. -/
theorem encode_decode_roundtrip {T : Type} (r : Response T) :
    decodeResponse (encodeResponse r) = some r := by
  cases r
  rfl

/-- C10: The representable state space of the structure is not restricted to
the two constructor outcomes: there is an envelope with both optionals absent
(and likewise one with both present), violating mutual exclusivity, and no
constructor produces it, so the invariants hold only for constructed values,
not structurally. -/
theorem pub_fields_allow_invariant_violation :
    (∃ r : Response Nat, r.data = none ∧ r.error = none ∧
      r.data.isSome = r.error.isSome ∧
      (∀ v, r ≠ Response.ok v) ∧ (∀ c, r ≠ Response.err c)) ∧
    (∃ r : Response Nat, r.data.isSome = true ∧ r.error.isSome = true ∧
      (∀ v, r ≠ Response.ok v) ∧ (∀ c, r ≠ Response.err c)) := by
  constructor
  · refine ⟨{ success := true, data := none, error := none }, rfl, rfl, rfl, ?_, ?_⟩
    · intro v hcontra
      have := congrArg Response.data hcontra
      simp [Response.ok] at this
    · intro c hcontra
      have := congrArg Response.error hcontra
      simp [Response.err] at this
  · refine ⟨{ success := true, data := some 0, error := some 0 }, rfl, rfl, ?_, ?_⟩
    · intro v hcontra
      have := congrArg Response.error hcontra
      simp [Response.ok] at this
    · intro c hcontra
      have := congrArg Response.data hcontra
      simp [Response.err] at this
